import Mathlib

/-!
Verification model of the Cloudflare-DNS-Security-Baseline scripts.

Each Python script is embedded as a pure function from an environment
(the values of the two credential environment variables plus the remote
API responses for each request the script can issue) to a run result:
the ordered list of HTTP requests the script issued, the tally of
succeeded/attempted mutations, and the process exit code.

Python truthiness on strings (`if ruleset_id:`) is modelled by
`pyTruthy` over `Option String` (unset variable = `none`, empty string
= falsy).  A request failure (`requests.exceptions.HTTPError` raised by
`raise_for_status`, or any other `RequestException`) is modelled by
`ReqError`; both are handled identically by every script.
-/

/-- HTTP method of a request issued through the `requests` library. -/
inductive Method where
  | get
  | post
  | put
  | patch
deriving DecidableEq, Repr

/-- A rule payload as passed to `add_rule_to_ruleset` in
`deploy_cache_rules.py` / `deploy_securityrules.py`: a description, an
action, an expression, and (for cache rules only) the
`action_parameters.cache` boolean. -/
structure Rule where
  description : String
  action : String
  expression : String
  action_parameters_cache : Option Bool := none
deriving DecidableEq, Repr

/-- The `ratelimit` object of the rate-limiting rule payload in
`deploy_rate_limiting.py`. -/
structure RatelimitCfg where
  characteristics : List String
  mitigation_timeout : Nat
  period : Nat
  requests_per_period : Nat
deriving DecidableEq, Repr

/-- A rule of the rate-limit entrypoint payload in
`deploy_rate_limiting.py`. -/
structure RLRule where
  action : String
  description : String
  enabled : Bool
  expression : String
  ratelimit : RatelimitCfg
deriving DecidableEq, Repr

/-- A standalone zone setting update, one entry of the
`settings_to_apply` lists: API name, friendly name, and the `value`
field of the payload. -/
structure Setting where
  api_name : String
  friendly_name : String
  value : String
deriving DecidableEq, Repr

/-- A ruleset as returned by the list endpoint; every field is read via
`dict.get`, hence `Option`. -/
structure Ruleset where
  id : Option String := none
  name : Option String := none
  kind : Option String := none
  phase : Option String := none
deriving DecidableEq, Repr

/-- An HTTP request issued by one of the scripts, with its payload. -/
inductive Request where
  /-- GET `/zones/Z/rulesets`. -/
  | listRulesets
  /-- POST `/zones/Z/rulesets` with a creation payload. -/
  | createRuleset (name description kind phase : String)
  /-- POST `/zones/Z/rulesets/RID/rules` with a rule payload. -/
  | addRule (rulesetId : String) (rule : Rule)
  /-- PATCH `/zones/Z/settings/NAME` with `\x7b"value": v\x7d`. -/
  | patchSetting (settingName value : String)
  /-- PATCH `/zones/Z/dnssec` with `\x7b"status": s\x7d`. -/
  | patchDnssec (status : String)
  /-- PUT `/zones/Z/page_shield` with the page-shield payload. -/
  | putPageShield (enabled useCloudflareReportingEndpoint useConnectionUrlPath : Bool)
  /-- PUT `/zones/Z/bot_management` with `\x7b"fight_mode": b\x7d`. -/
  | putBotFight (fight_mode : Bool)
  /-- PUT `/zones/Z/rulesets/phases/http_ratelimit/entrypoint` with the
  complete replacement rule list. -/
  | putRatelimitEntrypoint (rules : List RLRule)
deriving DecidableEq, Repr

/-- The HTTP verb each request is issued with in the source. -/
def Request.method : Request → Method
  | .listRulesets => .get
  | .createRuleset .. => .post
  | .addRule .. => .post
  | .patchSetting .. => .patch
  | .patchDnssec .. => .patch
  | .putPageShield .. => .put
  | .putBotFight .. => .put
  | .putRatelimitEntrypoint .. => .put

/-- Is this request a ruleset-creation request? -/
def Request.isCreate : Request → Bool
  | .createRuleset .. => true
  | _ => false

/-- Is this request an append-rule (mutation) request? -/
def Request.isAddRule : Request → Bool
  | .addRule .. => true
  | _ => false

/-- Is this request a write (anything but the list enumeration)? -/
def Request.isWrite : Request → Bool
  | .listRulesets => false
  | _ => true

/-- A failed HTTP interaction: a non-2xx response (`HTTPError` from
`raise_for_status`) or a transport-level `RequestException`. -/
inductive ReqError where
  | httpError (status : Nat)
  | transportError
deriving DecidableEq, Repr

/-- Python string truthiness over an optional environment value /
optional JSON field: `None` and `""` are falsy. -/
def pyTruthy : Option String → Bool
  | none => false
  | some s => !(s == "")

/-- Result of one script run: the ordered requests issued, the tally
(mutations succeeded / attempted), and the process exit code. -/
structure RunResult where
  requests : List Request
  succeeded : Nat
  attempted : Nat
  exitCode : Nat
deriving Repr

/-- The matching predicate of `find_or_create_cache_ruleset`:
`ruleset.get('kind') == 'zone' and ruleset.get('phase') == phase`. -/
def cacheMatch (r : Ruleset) : Bool :=
  r.kind == some "zone" && r.phase == some "http_request_cache_settings"

/-- The matching predicate of `find_firewall_ruleset_id`. -/
def firewallMatch (r : Ruleset) : Bool :=
  r.kind == some "zone" && r.phase == some "http_request_firewall_custom"

/-- Environment of `deploy_cache_rules.py`: credential variables, the
response to the list request, the response to the (potential) creation
request — `Except` error for a raised exception, otherwise the
`result.id` field read via `.get` — and the per-index outcome of each
add-rule request. -/
structure CacheEnv where
  apiToken : Option String
  zoneId : Option String
  listResp : Except ReqError (List Ruleset)
  createResp : Except ReqError (Option String)
  ruleResp : Nat → Bool

/-- `find_or_create_cache_ruleset` of `deploy_cache_rules.py`: list the
rulesets, scan for the first (kind = zone, phase = cache-settings)
match and return its id; otherwise POST a creation request and return
the id the response supplies, `none` when the response omits a truthy
id or when any request raised. Also returns the requests issued. -/
def find_or_create_cache_ruleset (env : CacheEnv) : Option String × List Request :=
  match env.listResp with
  | .error _ => (none, [Request.listRulesets])
  | .ok rulesets =>
    match rulesets.find? cacheMatch with
    | some rs => (rs.id, [Request.listRulesets])
    | none =>
      let createReq := Request.createRuleset "Default Cache Settings Ruleset"
        "Default ruleset for custom cache settings, created via API"
        "zone" "http_request_cache_settings"
      match env.createResp with
      | .error _ => (none, [Request.listRulesets, createReq])
      | .ok newId =>
        if pyTruthy newId then (newId, [Request.listRulesets, createReq])
        else (none, [Request.listRulesets, createReq])

/-- `add_rule_to_ruleset` (identical in `deploy_cache_rules.py` and
`deploy_securityrules.py`): POST the rule payload to the ruleset's
rules endpoint; returns `True` on 2xx, `False` when the request raised. -/
def add_rule_to_ruleset (rulesetId : String) (rule : Rule) (resp : Bool) :
    Bool × Request :=
  (resp, Request.addRule rulesetId rule)

/-- The per-rule loop of `main` in `deploy_cache_rules.py` /
`deploy_securityrules.py`: attempt every rule in list order, counting
successes; `i` is the index of the next request in the environment's
response stream. -/
def apply_rules (rulesetId : String) (resp : Nat → Bool) :
    List Rule → Nat → Nat × List Request
  | [], _ => (0, [])
  | rule :: rest, i =>
    let (ok, req) := add_rule_to_ruleset rulesetId rule (resp i)
    let (cnt, reqs) := apply_rules rulesetId resp rest (i + 1)
    ((if ok then 1 else 0) + cnt, req :: reqs)

/-- Rule 1 of `deploy_cache_rules.py`. -/
def bypass_admin_rule : Rule :=
  { description := "Bypass Cache for Admin Areas"
    action := "set_cache_settings"
    action_parameters_cache := some false
    expression := "(http.request.uri.path contains \"/wp-admin\") or (http.request.uri.path contains \"/admin\")" }

/-- Rule 2 of `deploy_cache_rules.py`. -/
def bypass_login_rule : Rule :=
  { description := "Bypass Cache for User Login and Portal Pages"
    action := "set_cache_settings"
    action_parameters_cache := some false
    expression := "(http.request.uri.path contains \"/login\") or (http.request.uri.path contains \"/signin\") or (http.request.uri.path contains \"/dashboard\") or (http.request.uri.path contains \"/portal\") or (http.request.uri.path contains \"/user\") or (http.request.uri.path contains \"/account\") or (http.request.uri.path contains \"/clientarea\")" }

/-- The fixed batch of `deploy_cache_rules.py`. -/
def cache_rules_to_add : List Rule := [bypass_admin_rule, bypass_login_rule]

/-- `main` of `deploy_cache_rules.py`, parameterised by the
`rules_to_add` list (the loop body does not inspect the list content):
abort with exit 1 before any request when a credential is missing;
locate or create the ruleset; on a truthy id apply every rule and exit
1 iff any failed, otherwise exit 1 without mutation attempts. -/
def cache_main (rules_to_add : List Rule) (env : CacheEnv) : RunResult :=
  if !(pyTruthy env.apiToken && pyTruthy env.zoneId) then
    { requests := [], succeeded := 0, attempted := 0, exitCode := 1 }
  else
    let (ridOpt, locReqs) := find_or_create_cache_ruleset env
    if pyTruthy ridOpt then
      let rid := ridOpt.getD ""
      let (cnt, mreqs) := apply_rules rid env.ruleResp rules_to_add 0
      { requests := locReqs ++ mreqs
        succeeded := cnt
        attempted := rules_to_add.length
        exitCode := if cnt < rules_to_add.length then 1 else 0 }
    else
      { requests := locReqs, succeeded := 0, attempted := 0, exitCode := 1 }

/-- Environment of `deploy_securityrules.py`: credentials, the list
response, and the per-index outcome of each add-rule request. -/
structure FirewallEnv where
  apiToken : Option String
  zoneId : Option String
  listResp : Except ReqError (List Ruleset)
  ruleResp : Nat → Bool

/-- `find_firewall_ruleset_id` of `deploy_securityrules.py`: list the
rulesets and scan for the first (kind = zone, phase =
firewall-custom) match, returning its id; returns `none` (after an
error message) when no match exists or the request raised — it never
creates a ruleset. Also returns the requests issued. -/
def find_firewall_ruleset_id (env : FirewallEnv) : Option String × List Request :=
  match env.listResp with
  | .error _ => (none, [Request.listRulesets])
  | .ok rulesets =>
    match rulesets.find? firewallMatch with
    | some rs => (rs.id, [Request.listRulesets])
    | none => (none, [Request.listRulesets])

/-- Rule 1 of `deploy_securityrules.py`. -/
def geo_block_rule : Rule :=
  { description := "Block High-Risk Countries"
    action := "block"
    expression := "(ip.src.country in \x7b \"AF\" \"DZ\" \"BY\" \"BO\" \"BQ\" \"BW\" \"TD\" \"CN\" \"DJ\" \"EC\" \"ER\" \"GH\" \"HN\" \"KP\" \"KG\" \"NA\" \"RU\" \"SO\" \"SZ\" \"SY\" \"UA\" \"YE\" \"XX\" \"TN\" \x7d)" }

/-- Rule 2 of `deploy_securityrules.py`. -/
def scanner_block_rule : Rule :=
  { description := "Block High-Risk Scanners"
    action := "block"
    expression := "(http.user_agent contains \"nikto\") or (http.user_agent contains \"sqlmap\")" }

/-- The fixed batch of `deploy_securityrules.py`. -/
def firewall_rules_to_add : List Rule := [geo_block_rule, scanner_block_rule]

/-- `main` of `deploy_securityrules.py`, parameterised by the
`rules_to_add` list: credential check, locate the firewall ruleset
(never creating it), then apply every rule; exit 1 when the locator
failed or any rule failed. -/
def securityrules_main (rules_to_add : List Rule) (env : FirewallEnv) : RunResult :=
  if !(pyTruthy env.apiToken && pyTruthy env.zoneId) then
    { requests := [], succeeded := 0, attempted := 0, exitCode := 1 }
  else
    let (ridOpt, locReqs) := find_firewall_ruleset_id env
    if pyTruthy ridOpt then
      let rid := ridOpt.getD ""
      let (cnt, mreqs) := apply_rules rid env.ruleResp rules_to_add 0
      { requests := locReqs ++ mreqs
        succeeded := cnt
        attempted := rules_to_add.length
        exitCode := if cnt < rules_to_add.length then 1 else 0 }
    else
      { requests := locReqs, succeeded := 0, attempted := 0, exitCode := 1 }

/-- `update_zone_setting` (identical in `deploy_speed.py`,
`deploy_dns_sec_settings.py` and `deploy_sec_settings.py`): PATCH the
generic per-setting endpoint `/zones/Z/settings/NAME`; returns `True`
on 2xx, `False` when the request raised. -/
def update_zone_setting (settingName value : String) (resp : Bool) :
    Bool × Request :=
  (resp, Request.patchSetting settingName value)

/-- The per-setting loop shared by the three settings scripts: attempt
every setting in list order through `update_zone_setting`, counting
successes; `i` indexes the environment's response stream. -/
def apply_settings (resp : Nat → Bool) :
    List Setting → Nat → Nat × List Request
  | [], _ => (0, [])
  | s :: rest, i =>
    let (ok, req) := update_zone_setting s.api_name s.value (resp i)
    let (cnt, reqs) := apply_settings resp rest (i + 1)
    ((if ok then 1 else 0) + cnt, req :: reqs)

/-- `update_dnssec_setting` of `deploy_dns_sec_settings.py`: PATCH the
dedicated `/zones/Z/dnssec` endpoint with status `active`. -/
def update_dnssec_setting (resp : Bool) : Bool × Request :=
  (resp, Request.patchDnssec "active")

/-- `update_page_shield_setting` of `deploy_sec_settings.py`: PUT the
dedicated `/zones/Z/page_shield` endpoint with the full
page-shield configuration object. -/
def update_page_shield_setting (resp : Bool) : Bool × Request :=
  (resp, Request.putPageShield true true true)

/-- `update_bot_fight_mode` of `deploy_sec_settings.py`: PUT the
dedicated `/zones/Z/bot_management` endpoint with `fight_mode = true`. -/
def update_bot_fight_mode (resp : Bool) : Bool × Request :=
  (resp, Request.putBotFight true)

/-- The `ssl_settings_to_apply` list of `deploy_dns_sec_settings.py`. -/
def ssl_settings_to_apply : List Setting :=
  [ { api_name := "ssl", friendly_name := "SSL/TLS Mode", value := "strict" },
    { api_name := "always_use_https", friendly_name := "Always Use HTTPS", value := "on" },
    { api_name := "min_tls_version", friendly_name := "Minimum TLS Version", value := "1.2" },
    { api_name := "tls_1_3", friendly_name := "TLS 1.3", value := "on" },
    { api_name := "automatic_https_rewrites", friendly_name := "Automatic HTTPS Rewrites", value := "on" } ]

/-- Environment of `deploy_dns_sec_settings.py`: credentials, the
DNSSEC request outcome, and the per-index outcome of each generic
setting update. -/
structure DnsEnv where
  apiToken : Option String
  zoneId : Option String
  dnssecResp : Bool
  settingResp : Nat → Bool

/-- `main` of `deploy_dns_sec_settings.py`, parameterised by the
settings list: credential check; `total = len + 1` (the DNSSEC
update); update DNSSEC, then every generic setting in order; exit 1
iff any of the `total` updates failed. -/
def dns_sec_main (settings : List Setting) (env : DnsEnv) : RunResult :=
  if !(pyTruthy env.apiToken && pyTruthy env.zoneId) then
    { requests := [], succeeded := 0, attempted := 0, exitCode := 1 }
  else
    let total := settings.length + 1
    let (ok1, req1) := update_dnssec_setting env.dnssecResp
    let (cnt, reqs) := apply_settings env.settingResp settings 0
    let succ := (if ok1 then 1 else 0) + cnt
    { requests := req1 :: reqs
      succeeded := succ
      attempted := total
      exitCode := if succ < total then 1 else 0 }

/-- The `standard_settings_to_apply` list of `deploy_sec_settings.py`. -/
def standard_settings_to_apply : List Setting :=
  [ { api_name := "hcaptcha_pass", friendly_name := "AI Labyrinth (Turnstile)", value := "on" } ]

/-- Environment of `deploy_sec_settings.py`: credentials, the
page-shield and bot-fight-mode request outcomes, and the per-index
outcome of each generic setting update. -/
structure SecEnv where
  apiToken : Option String
  zoneId : Option String
  pageShieldResp : Bool
  botFightResp : Bool
  settingResp : Nat → Bool

/-- `main` of `deploy_sec_settings.py`, parameterised by the settings
list: credential check; `total = len + 2`; update page shield, then
bot fight mode, then every generic setting in order; exit 1 iff any
of the `total` updates failed. -/
def sec_settings_main (settings : List Setting) (env : SecEnv) : RunResult :=
  if !(pyTruthy env.apiToken && pyTruthy env.zoneId) then
    { requests := [], succeeded := 0, attempted := 0, exitCode := 1 }
  else
    let total := settings.length + 2
    let (ok1, req1) := update_page_shield_setting env.pageShieldResp
    let (ok2, req2) := update_bot_fight_mode env.botFightResp
    let (cnt, reqs) := apply_settings env.settingResp settings 0
    let succ := (if ok1 then 1 else 0) + (if ok2 then 1 else 0) + cnt
    { requests := req1 :: req2 :: reqs
      succeeded := succ
      attempted := total
      exitCode := if succ < total then 1 else 0 }

/-- The `settings_to_apply` list of `deploy_speed.py`. -/
def speed_settings_to_apply : List Setting :=
  [ { api_name := "speed_brain", friendly_name := "Speed Brain", value := "on" },
    { api_name := "early_hints", friendly_name := "Early Hints", value := "on" },
    { api_name := "0rtt", friendly_name := "0-RTT Connection Resumption", value := "on" } ]

/-- Environment of `deploy_speed.py`. -/
structure SpeedEnv where
  apiToken : Option String
  zoneId : Option String
  settingResp : Nat → Bool

/-- `main` of `deploy_speed.py`, parameterised by the settings list:
credential check, then every setting in order; exit 1 iff any failed. -/
def speed_main (settings : List Setting) (env : SpeedEnv) : RunResult :=
  if !(pyTruthy env.apiToken && pyTruthy env.zoneId) then
    { requests := [], succeeded := 0, attempted := 0, exitCode := 1 }
  else
    let (cnt, reqs) := apply_settings env.settingResp settings 0
    { requests := reqs
      succeeded := cnt
      attempted := settings.length
      exitCode := if cnt < settings.length then 1 else 0 }

/-- The single rate-limiting rule of the payload in
`deploy_rate_limiting.py`. -/
def rate_limit_rule : RLRule :=
  { action := "block"
    description := "Default Rate Limiting"
    enabled := true
    expression := "(http.request.uri.path wildcard r\"/api/*\") or (http.request.uri.path contains \"/login\") or (http.request.uri.path contains \"/dashboard\") or (http.request.uri.path contains \"/wp-login.php\") or (http.request.uri.path eq \"/administrator\") or (http.request.uri.path contains \"/index.php/admin/\") or (http.request.uri.path contains \"/wp-admin/\") or (http.request.uri.path wildcard r\"/rest/*\") or (http.request.uri.path contains \"/checkout\") or (http.request.uri.path contains \"/xmlrpc.php\")"
    ratelimit :=
      { characteristics := ["ip.src", "cf.colo.id"]
        mitigation_timeout := 10
        period := 10
        requests_per_period := 20 } }

/-- The full replacement rule list PUT to the rate-limit entrypoint. -/
def rate_limit_rules : List RLRule := [rate_limit_rule]

/-- `deploy_rate_limit_ruleset` of `deploy_rate_limiting.py`: one PUT
of the complete rule list to the `http_ratelimit` phase entrypoint
(an overwrite of the entrypoint ruleset, not an append). -/
def deploy_rate_limit_ruleset (resp : Bool) : Bool × Request :=
  (resp, Request.putRatelimitEntrypoint rate_limit_rules)

/-- Environment of `deploy_rate_limiting.py`. -/
structure RateEnv where
  apiToken : Option String
  zoneId : Option String
  deployResp : Bool

/-- `main` of `deploy_rate_limiting.py`: credential check, then the
single full-replace deployment; exit 1 iff it failed. -/
def rate_limiting_main (env : RateEnv) : RunResult :=
  if !(pyTruthy env.apiToken && pyTruthy env.zoneId) then
    { requests := [], succeeded := 0, attempted := 0, exitCode := 1 }
  else
    let (ok, req) := deploy_rate_limit_ruleset env.deployResp
    { requests := [req]
      succeeded := if ok then 1 else 0
      attempted := 1
      exitCode := if ok then 0 else 1 }

/-- Environment-side count of accepted requests: the number of indices
`j < n` with `resp (i + j) = true` (a property of the remote responses
alone, independent of the scripts). -/
def succFrom (resp : Nat → Bool) : Nat → Nat → Nat
  | _, 0 => 0
  | i, n + 1 => (if resp i then 1 else 0) + succFrom resp (i + 1) n

/-- Environment-side count of rejected requests: the number of indices
`j < n` with `resp (i + j) = false`. -/
def rejFrom (resp : Nat → Bool) : Nat → Nat → Nat
  | _, 0 => 0
  | i, n + 1 => (if resp i then 0 else 1) + rejFrom resp (i + 1) n

/-- A firewall environment whose enumeration succeeds with an empty
ruleset list: no ruleset matches (kind = zone, phase =
firewall-custom). -/
def fwEnvNoMatch : FirewallEnv :=
  { apiToken := some "token", zoneId := some "zone1"
    listResp := Except.ok []
    ruleResp := fun _ => true }

/-- A ruleset that matches neither locator predicate (a managed
ruleset). -/
def rsManaged : Ruleset :=
  { id := some "managed1", name := some "Cloudflare Managed Ruleset"
    kind := some "managed", phase := some "http_request_firewall_managed" }

/-- The zone cache-settings ruleset used by concrete runs. -/
def rsCacheA : Ruleset :=
  { id := some "cacheA", name := some "Default Cache Settings Ruleset"
    kind := some "zone", phase := some "http_request_cache_settings" }

/-- A second cache-settings ruleset, listed after `rsCacheA`. -/
def rsCacheB : Ruleset :=
  { id := some "cacheB", name := some "Another Cache Ruleset"
    kind := some "zone", phase := some "http_request_cache_settings" }

/-- The zone firewall-custom ruleset used by concrete runs. -/
def rsFirewallA : Ruleset :=
  { id := some "fwA", name := some "default"
    kind := some "zone", phase := some "http_request_firewall_custom" }

/-- A second firewall-custom ruleset, listed after `rsFirewallA`. -/
def rsFirewallB : Ruleset :=
  { id := some "fwB", name := some "spare"
    kind := some "zone", phase := some "http_request_firewall_custom" }

/-- Cache environment: empty enumeration, creation returns id
`newid123`. -/
def cacheEnvCreate : CacheEnv :=
  { apiToken := some "token", zoneId := some "zone1"
    listResp := Except.ok []
    createResp := Except.ok (some "newid123")
    ruleResp := fun _ => true }

/-- Cache environment: empty enumeration, creation response carries no
id. -/
def cacheEnvNoId : CacheEnv :=
  { apiToken := some "token", zoneId := some "zone1"
    listResp := Except.ok []
    createResp := Except.ok none
    ruleResp := fun _ => true }

/-- Cache environment with an existing cache ruleset; the remote
accepts the first append and rejects every later one. -/
def cacheEnvBatch : CacheEnv :=
  { apiToken := some "token", zoneId := some "zone1"
    listResp := Except.ok [rsManaged, rsCacheA]
    createResp := Except.ok none
    ruleResp := fun i => i == 0 }

/-- DNS/TLS environment: the DNSSEC update fails, every generic
setting update succeeds. -/
def dnsEnvBatch : DnsEnv :=
  { apiToken := some "token", zoneId := some "zone1"
    dnssecResp := false
    settingResp := fun _ => true }

/-- Speed environment in which every update succeeds. -/
def speedEnvAll : SpeedEnv :=
  { apiToken := some "token", zoneId := some "zone1"
    settingResp := fun _ => true }

/-- Security-settings environment in which every update succeeds. -/
def secEnvAll : SecEnv :=
  { apiToken := some "token", zoneId := some "zone1"
    pageShieldResp := true
    botFightResp := true
    settingResp := fun _ => true }

/-- Cache environment listing a non-matching ruleset, then two
matching ones. -/
def cacheEnvFound : CacheEnv :=
  { apiToken := some "token", zoneId := some "zone1"
    listResp := Except.ok [rsManaged, rsCacheA, rsCacheB]
    createResp := Except.ok none
    ruleResp := fun _ => true }

/-- Firewall environment listing a non-matching ruleset, then two
matching ones. -/
def fwEnvFound : FirewallEnv :=
  { apiToken := some "token", zoneId := some "zone1"
    listResp := Except.ok [rsManaged, rsFirewallA, rsFirewallB]
    ruleResp := fun _ => true }

/-- Cache environment whose enumeration request returns HTTP 500. -/
def cacheEnv500 : CacheEnv :=
  { apiToken := some "token", zoneId := some "zone1"
    listResp := Except.error (ReqError.httpError 500)
    createResp := Except.ok none
    ruleResp := fun _ => true }

/-- Cache environment with the token variable unset. -/
def cacheEnvNoCred : CacheEnv :=
  { apiToken := none, zoneId := some "zone1"
    listResp := Except.ok []
    createResp := Except.ok none
    ruleResp := fun _ => true }

/-- Rate-limit environment with an empty zone id variable. -/
def rateEnvNoCred : RateEnv :=
  { apiToken := some "token", zoneId := some ""
    deployResp := true }

/-- Firewall environment listing only a non-matching (managed)
ruleset. -/
def fwEnvOnlyManaged : FirewallEnv :=
  { apiToken := some "token", zoneId := some "zone1"
    listResp := Except.ok [rsManaged]
    ruleResp := fun _ => true }

theorem succFrom_add_rejFrom (resp : Nat → Bool) :
    ∀ (n i : Nat), succFrom resp i n + rejFrom resp i n = n := by
  intro n
  induction n with
  | zero => intro i; rfl
  | succ m ih =>
    intro i
    have h2 := ih (i + 1)
    simp only [succFrom, rejFrom]
    cases h : resp i <;> simp <;> omega

theorem rejFrom_succ_right (resp : Nat → Bool) :
    ∀ (n i : Nat),
      rejFrom resp i (n + 1) = rejFrom resp i n + (if resp (i + n) then 0 else 1) := by
  intro n
  induction n with
  | zero => intro i; simp [rejFrom]
  | succ m ih =>
    intro i
    have h2 := ih (i + 1)
    have hidx : i + 1 + m = i + (m + 1) := by omega
    rw [hidx] at h2
    have e1 : rejFrom resp i (m + 1 + 1)
        = (if resp i then 0 else 1) + rejFrom resp (i + 1) (m + 1) := rfl
    have e2 : rejFrom resp i (m + 1)
        = (if resp i then 0 else 1) + rejFrom resp (i + 1) m := rfl
    rw [e1, e2, h2]
    omega

/-- `rejFrom` agrees with the count of rejected indices over
`List.range`: it is exactly the number of the `n` requests starting at
index `i` that the remote rejects. -/
theorem rejFrom_eq_countP (resp : Nat → Bool) :
    ∀ (n i : Nat),
      rejFrom resp i n = (List.range n).countP (fun j => !resp (i + j)) := by
  intro n
  induction n with
  | zero => intro i; rfl
  | succ m ih =>
    intro i
    rw [rejFrom_succ_right, List.range_succ, List.countP_append, ih i]
    have hone : List.countP (fun j => !resp (i + j)) [m]
        = if resp (i + m) then 0 else 1 := by
      cases h : resp (i + m) <;> simp [List.countP_cons, h]
    rw [hone]

theorem succFrom_all (resp : Nat → Bool) :
    ∀ (n i : Nat), (∀ j, j < n → resp (i + j) = true) → succFrom resp i n = n := by
  intro n
  induction n with
  | zero => intro i _; rfl
  | succ m ih =>
    intro i h
    have h0 : resp i = true := by simpa using h 0 (Nat.succ_pos m)
    have hrest : ∀ j, j < m → resp (i + 1 + j) = true := by
      intro j hj
      have hj1 := h (j + 1) (Nat.succ_lt_succ hj)
      have hx : i + 1 + j = i + (j + 1) := by omega
      rw [hx]
      exact hj1
    simp [succFrom, h0, ih (i + 1) hrest]
    omega

/-- The rule-applying loop attempts exactly one request per rule, in
list order, and counts exactly the accepted ones — whatever the
responses to earlier requests were. -/
theorem apply_rules_eq (rulesetId : String) (resp : Nat → Bool) :
    ∀ (rules : List Rule) (i : Nat),
      apply_rules rulesetId resp rules i =
        (succFrom resp i rules.length, rules.map (Request.addRule rulesetId)) := by
  intro rules
  induction rules with
  | nil => intro i; rfl
  | cons r rest ih =>
    intro i
    simp [apply_rules, add_rule_to_ruleset, succFrom, ih (i + 1)]

/-- The setting-applying loop attempts exactly one request per setting,
in list order, and counts exactly the accepted ones. -/
theorem apply_settings_eq (resp : Nat → Bool) :
    ∀ (settings : List Setting) (i : Nat),
      apply_settings resp settings i =
        (succFrom resp i settings.length,
         settings.map (fun s => Request.patchSetting s.api_name s.value)) := by
  intro settings
  induction settings with
  | nil => intro i; rfl
  | cons s rest ih =>
    intro i
    simp [apply_settings, update_zone_setting, succFrom, ih (i + 1)]

theorem countP_addRule_map (rulesetId : String) (rules : List Rule) :
    (rules.map (Request.addRule rulesetId)).countP Request.isAddRule = rules.length := by
  induction rules with
  | nil => rfl
  | cons r rest ih => simp [List.countP_cons, Request.isAddRule, ih]

/-- The cache locator never issues an append-rule request. -/
theorem find_or_create_no_addRule (env : CacheEnv) :
    (find_or_create_cache_ruleset env).2.countP Request.isAddRule = 0 := by
  rcases env with ⟨tok, zid, lr, cr, rr⟩
  cases lr with
  | error e => rfl
  | ok rulesets =>
    unfold find_or_create_cache_ruleset
    simp only
    cases rulesets.find? cacheMatch with
    | some rs => rfl
    | none =>
      cases cr with
      | error e => rfl
      | ok newId =>
        cases h : pyTruthy newId <;> simp [h, Request.isAddRule]

/-- The firewall locator issues exactly the one enumeration request,
whatever the environment. -/
theorem find_firewall_requests (env : FirewallEnv) :
    (find_firewall_ruleset_id env).2 = [Request.listRulesets] := by
  rcases env with ⟨tok, zid, lr, rr⟩
  cases lr with
  | error e => rfl
  | ok rulesets =>
    unfold find_firewall_ruleset_id
    simp only
    cases rulesets.find? firewallMatch <;> rfl

theorem pyTruthy_none : pyTruthy none = false := rfl

/-- C4: when the container enumeration succeeds and a listed ruleset
with kind `zone` and the target phase exists, both locators issue no
creation request (their request trace is exactly the one enumeration)
and return the identifier of the first matching ruleset in the order
the remote system returned (`List.find?` is the linear first-match
scan of the source loops). -/
theorem C4_thm (env : CacheEnv) (fenv : FirewallEnv) (l fl : List Ruleset) (r fr : Ruleset)
    (hl : env.listResp = Except.ok l) (hfind : l.find? cacheMatch = some r)
    (hfl : fenv.listResp = Except.ok fl) (hffind : fl.find? firewallMatch = some fr) :
    find_or_create_cache_ruleset env = (r.id, [Request.listRulesets]) ∧
    find_firewall_ruleset_id fenv = (fr.id, [Request.listRulesets]) := by
  constructor
  · simp [find_or_create_cache_ruleset, hl, hfind]
  · simp [find_firewall_ruleset_id, hfl, hffind]

/-- C5: when the cache orchestrator's enumeration request fails (HTTP
error such as a 500, or a transport error), the locator returns the
failure sentinel `none` having issued only the enumeration request,
and the whole run — for any rule batch — issues zero mutation
requests and exits with status 1. -/
theorem C5_thm (env : CacheEnv) (e : ReqError) (hl : env.listResp = Except.error e) :
    find_or_create_cache_ruleset env = (none, [Request.listRulesets]) ∧
    ∀ rules : List Rule,
      (cache_main rules env).requests.countP Request.isAddRule = 0 ∧
      (cache_main rules env).exitCode = 1 := by
  have hloc : find_or_create_cache_ruleset env = (none, [Request.listRulesets]) := by
    simp [find_or_create_cache_ruleset, hl]
  refine ⟨hloc, ?_⟩
  intro rules
  cases hcb : (pyTruthy env.apiToken && pyTruthy env.zoneId) with
  | false => simp [cache_main, hcb]
  | true => simp [cache_main, hcb, hloc, pyTruthy_none, Request.isAddRule]

/-- C6: when `CLOUDFLARE_API_TOKEN` or `ZONE_ID` is unset or empty, the
cache orchestrator and the rate-limit orchestrator issue zero network
requests and exit with status 1. -/
theorem C6_thm (env : CacheEnv) (renv : RateEnv) (rules : List Rule)
    (h : pyTruthy env.apiToken = false ∨ pyTruthy env.zoneId = false)
    (hr : pyTruthy renv.apiToken = false ∨ pyTruthy renv.zoneId = false) :
    (cache_main rules env).requests = [] ∧ (cache_main rules env).exitCode = 1 ∧
    (rate_limiting_main renv).requests = [] ∧ (rate_limiting_main renv).exitCode = 1 := by
  have hc : (pyTruthy env.apiToken && pyTruthy env.zoneId) = false := by
    rcases h with h | h <;> simp [h]
  have hrc : (pyTruthy renv.apiToken && pyTruthy renv.zoneId) = false := by
    rcases hr with h | h <;> simp [h]
  simp [cache_main, rate_limiting_main, hc, hrc]

/-- C7: every run of the rate-limit orchestrator issues its rule write
as the single full-replace PUT of the complete rule list to the
`http_ratelimit` phase entrypoint (when the credentials are present;
no request at all otherwise), and never issues an append-rule
request. -/
theorem C7_thm : ∀ env : RateEnv,
    ((rate_limiting_main env).requests =
      if pyTruthy env.apiToken && pyTruthy env.zoneId then
        [Request.putRatelimitEntrypoint rate_limit_rules]
      else []) ∧
    (rate_limiting_main env).requests.countP Request.isAddRule = 0 ∧
    (Request.putRatelimitEntrypoint rate_limit_rules).method = Method.put := by
  intro env
  cases hcb : (pyTruthy env.apiToken && pyTruthy env.zoneId) <;>
    simp [rate_limiting_main, hcb, deploy_rate_limit_ruleset,
      Request.isAddRule, Request.method]

/-- C8: the batch loops issue exactly one write request per mutation,
strictly in the order of the input list, whatever the responses to
earlier requests were (no reordering, no batching, no retry): the
request trace equals the input list mapped to its request. -/
theorem C8_thm : ∀ (rulesetId : String) (resp : Nat → Bool) (rules : List Rule)
    (i : Nat) (settings : List Setting),
    (apply_rules rulesetId resp rules i).2 = rules.map (Request.addRule rulesetId) ∧
    (apply_rules rulesetId resp rules i).2.length = rules.length ∧
    (apply_settings resp settings i).2 =
      settings.map (fun s => Request.patchSetting s.api_name s.value) ∧
    (apply_settings resp settings i).2.length = settings.length := by
  intro rulesetId resp rules i settings
  simp [apply_rules_eq, apply_settings_eq]

/-- C9: of the three special-endpoint updates, the page-shield and
bot-fight-mode updates are issued with PUT (full replace) while the
DNSSEC update and every generic per-setting update are issued with
PATCH (partial update). -/
theorem C9_thm : ∀ (ps bf dn g : Bool) (settingName value : String),
    (update_page_shield_setting ps).2.method = Method.put ∧
    (update_bot_fight_mode bf).2.method = Method.put ∧
    (update_dnssec_setting dn).2.method = Method.patch ∧
    (update_zone_setting settingName value g).2.method = Method.patch := by
  intro ps bf dn g settingName value
  exact ⟨rfl, rfl, rfl, rfl⟩

/-- C1 counterexample: the firewall orchestrator is container-based,
yet in a run whose enumeration succeeds with no ruleset of kind
`zone` and its target phase, its locator issues zero creation
requests — not exactly one — and returns the failure sentinel. -/
theorem C1_cex :
    fwEnvNoMatch.listResp = Except.ok [] ∧
    ¬ ((find_firewall_ruleset_id fwEnvNoMatch).2.countP Request.isCreate = 1) ∧
    (find_firewall_ruleset_id fwEnvNoMatch).1 = none := by
  refine ⟨rfl, ?_, rfl⟩
  decide

/-- C1 (amended): for the cache orchestrator, when the enumeration
succeeds and no listed ruleset matches (kind = zone, target phase),
the locator issues exactly one creation request; when the creation
response supplies an identifier the locator returns it, and when it
supplies no identifier the locator signals failure (`none`) and the
run attempts no mutation request.  The firewall orchestrator's
locator, by contrast, issues no creation request at all in this
situation and signals failure. -/
theorem C1_thm (env : CacheEnv) (fenv : FirewallEnv) (l fl : List Ruleset)
    (hl : env.listResp = Except.ok l) (hnone : l.find? cacheMatch = none)
    (hfl : fenv.listResp = Except.ok fl) (hfnone : fl.find? firewallMatch = none) :
    (find_or_create_cache_ruleset env).2.countP Request.isCreate = 1 ∧
    (∀ i : String, i ≠ "" → env.createResp = Except.ok (some i) →
      (find_or_create_cache_ruleset env).1 = some i) ∧
    (env.createResp = Except.ok none →
      (find_or_create_cache_ruleset env).1 = none ∧
      ∀ rules : List Rule,
        (cache_main rules env).requests.countP Request.isAddRule = 0) ∧
    (find_firewall_ruleset_id fenv).2.countP Request.isCreate = 0 ∧
    (find_firewall_ruleset_id fenv).1 = none := by
  refine ⟨?_, ?_, ?_, ?_, ?_⟩
  · have hreq : (find_or_create_cache_ruleset env).2 =
        [Request.listRulesets,
         Request.createRuleset "Default Cache Settings Ruleset"
           "Default ruleset for custom cache settings, created via API"
           "zone" "http_request_cache_settings"] := by
      cases hc : env.createResp with
      | error e => simp [find_or_create_cache_ruleset, hl, hnone, hc]
      | ok newId =>
        cases ht : pyTruthy newId <;>
          simp [find_or_create_cache_ruleset, hl, hnone, hc, ht]
    rw [hreq]
    rfl
  · intro i hi hc
    have hbe : (i == "") = false := beq_eq_false_iff_ne.mpr hi
    simp [find_or_create_cache_ruleset, hl, hnone, hc, pyTruthy, hbe]
  · intro hc
    have hloc : find_or_create_cache_ruleset env =
        (none,
         [Request.listRulesets,
          Request.createRuleset "Default Cache Settings Ruleset"
            "Default ruleset for custom cache settings, created via API"
            "zone" "http_request_cache_settings"]) := by
      simp [find_or_create_cache_ruleset, hl, hnone, hc, pyTruthy_none]
    refine ⟨by rw [hloc], ?_⟩
    intro rules
    cases hcb : (pyTruthy env.apiToken && pyTruthy env.zoneId) with
    | false => simp [cache_main, hcb]
    | true => simp [cache_main, hcb, hloc, pyTruthy_none, Request.isAddRule]
  · rw [find_firewall_requests]
    rfl
  · simp [find_firewall_ruleset_id, hfl, hfnone]

/-- C2: in any batch run reaching the mutation phase (credentials
present, locator returned a truthy id) where the remote rejects `k`
of the `N` mutations, all `N` are attempted (one append request per
rule, no early stop), the final tally records exactly `N - k`
successes, and a non-zero exit occurs whenever `k > 0` — stated for
the cache orchestrator and, with the DNSSEC update counted into the
batch, for the DNS/TLS-settings orchestrator. -/
theorem C2_thm (rules : List Rule) (env : CacheEnv)
    (hcred : (pyTruthy env.apiToken && pyTruthy env.zoneId) = true)
    (hloc : pyTruthy (find_or_create_cache_ruleset env).1 = true)
    (settings : List Setting) (denv : DnsEnv)
    (hdcred : (pyTruthy denv.apiToken && pyTruthy denv.zoneId) = true) :
    ((cache_main rules env).requests.countP Request.isAddRule = rules.length ∧
     (cache_main rules env).attempted = rules.length ∧
     (cache_main rules env).succeeded
       = rules.length - rejFrom env.ruleResp 0 rules.length ∧
     (0 < rejFrom env.ruleResp 0 rules.length →
       (cache_main rules env).exitCode = 1)) ∧
    ((dns_sec_main settings denv).requests.length = settings.length + 1 ∧
     (dns_sec_main settings denv).attempted = settings.length + 1 ∧
     (dns_sec_main settings denv).succeeded
       = (settings.length + 1) -
           ((if denv.dnssecResp then 0 else 1)
             + rejFrom denv.settingResp 0 settings.length) ∧
     (0 < (if denv.dnssecResp then 0 else 1)
             + rejFrom denv.settingResp 0 settings.length →
       (dns_sec_main settings denv).exitCode = 1)) := by
  constructor
  · have hsr := succFrom_add_rejFrom env.ruleResp rules.length 0
    have hz := find_or_create_no_addRule env
    rcases hfc : find_or_create_cache_ruleset env with ⟨ro, lr⟩
    rw [hfc] at hloc
    rw [hfc] at hz
    have hmain : cache_main rules env =
        { requests := lr ++ rules.map (Request.addRule (ro.getD ""))
          succeeded := succFrom env.ruleResp 0 rules.length
          attempted := rules.length
          exitCode :=
            if succFrom env.ruleResp 0 rules.length < rules.length then 1 else 0 } := by
      simp [cache_main, hcred, hfc, hloc, apply_rules_eq]
    rw [hmain]
    refine ⟨?_, rfl, ?_, ?_⟩
    · simp only [List.countP_append, hz, countP_addRule_map, Nat.zero_add]
    · simp only
      omega
    · intro hk
      simp only
      rw [if_pos (by omega)]
  · have hds := succFrom_add_rejFrom denv.settingResp settings.length 0
    have hmain : dns_sec_main settings denv =
        { requests := Request.patchDnssec "active"
            :: settings.map (fun s => Request.patchSetting s.api_name s.value)
          succeeded := (if denv.dnssecResp then 1 else 0)
            + succFrom denv.settingResp 0 settings.length
          attempted := settings.length + 1
          exitCode :=
            if (if denv.dnssecResp then 1 else 0)
                + succFrom denv.settingResp 0 settings.length
                < settings.length + 1 then 1 else 0 } := by
      simp [dns_sec_main, hdcred, update_dnssec_setting, apply_settings_eq]
    rw [hmain]
    refine ⟨by simp, rfl, ?_, ?_⟩
    · simp only
      cases denv.dnssecResp <;> simp <;> omega
    · intro hk
      simp only
      rw [if_pos ?_]
      cases h : denv.dnssecResp <;> rw [h] at hk <;> simp at hk ⊢ <;> omega

/-- C3: for any batch run in which the remote accepts every mutation,
the final tally's succeeded count equals its attempted count and the
process exits with status 0 — stated for the speed orchestrator and
for the security-settings orchestrator (page shield and bot fight
mode counted into its batch). -/
theorem C3_thm (settings : List Setting) (env : SpeedEnv)
    (ssettings : List Setting) (senv : SecEnv)
    (hcred : (pyTruthy env.apiToken && pyTruthy env.zoneId) = true)
    (hall : ∀ j, j < settings.length → env.settingResp j = true)
    (hscred : (pyTruthy senv.apiToken && pyTruthy senv.zoneId) = true)
    (hps : senv.pageShieldResp = true) (hbf : senv.botFightResp = true)
    (hsall : ∀ j, j < ssettings.length → senv.settingResp j = true) :
    ((speed_main settings env).succeeded = (speed_main settings env).attempted ∧
     (speed_main settings env).exitCode = 0) ∧
    ((sec_settings_main ssettings senv).succeeded
       = (sec_settings_main ssettings senv).attempted ∧
     (sec_settings_main ssettings senv).exitCode = 0) := by
  have h1 : succFrom env.settingResp 0 settings.length = settings.length := by
    refine succFrom_all _ _ _ ?_
    intro j hj
    simpa using hall j hj
  have h2 : succFrom senv.settingResp 0 ssettings.length = ssettings.length := by
    refine succFrom_all _ _ _ ?_
    intro j hj
    simpa using hsall j hj
  constructor
  · have hmain : speed_main settings env =
        { requests := settings.map (fun s => Request.patchSetting s.api_name s.value)
          succeeded := settings.length
          attempted := settings.length
          exitCode := 0 } := by
      simp [speed_main, hcred, apply_settings_eq, h1]
    rw [hmain]
    exact ⟨rfl, rfl⟩
  · have hmain : sec_settings_main ssettings senv =
        { requests := Request.putPageShield true true true
            :: Request.putBotFight true
            :: ssettings.map (fun s => Request.patchSetting s.api_name s.value)
          succeeded := ssettings.length + 2
          attempted := ssettings.length + 2
          exitCode := 0 } := by
      simp [sec_settings_main, hscred, apply_settings_eq, h2, hps, hbf,
        update_page_shield_setting, update_bot_fight_mode]
      omega
    rw [hmain]
    exact ⟨rfl, rfl⟩

/-- C10: the firewall locator is read-only in every run — its request
trace is exactly the single enumeration request and contains no
write; in particular, when the enumeration succeeds but no ruleset of
kind `zone` and phase `http_request_firewall_custom` is listed, it
returns the failure sentinel and the whole run exits with status 1
without any write request having been issued. -/
theorem C10_thm : ∀ env : FirewallEnv,
    (find_firewall_ruleset_id env).2 = [Request.listRulesets] ∧
    (find_firewall_ruleset_id env).2.countP Request.isWrite = 0 ∧
    ∀ l, env.listResp = Except.ok l → l.find? firewallMatch = none →
      (find_firewall_ruleset_id env).1 = none ∧
      ∀ rules : List Rule,
        (securityrules_main rules env).exitCode = 1 ∧
        (securityrules_main rules env).requests.countP Request.isWrite = 0 := by
  intro env
  have hreq := find_firewall_requests env
  refine ⟨hreq, by rw [hreq]; rfl, ?_⟩
  intro l hl hnone
  have h1 : (find_firewall_ruleset_id env).1 = none := by
    simp [find_firewall_ruleset_id, hl, hnone]
  refine ⟨h1, ?_⟩
  intro rules
  have hp : find_firewall_ruleset_id env = (none, [Request.listRulesets]) := by
    rcases hp0 : find_firewall_ruleset_id env with ⟨ro, lr⟩
    rw [hp0] at h1 hreq
    simp only at h1 hreq
    rw [h1, hreq]
  cases hcb : (pyTruthy env.apiToken && pyTruthy env.zoneId) with
  | false => simp [securityrules_main, hcb]
  | true =>
    simp [securityrules_main, hcb, hp, pyTruthy_none, Request.isWrite]

/-- C1 witness: concrete instantiation of the amended locator claim. -/
theorem C1_wit :
    (find_or_create_cache_ruleset cacheEnvCreate).2.countP Request.isCreate = 1 ∧
    (find_or_create_cache_ruleset cacheEnvCreate).1 = some "newid123" ∧
    (find_or_create_cache_ruleset cacheEnvNoId).1 = none ∧
    (cache_main cache_rules_to_add cacheEnvNoId).requests.countP Request.isAddRule = 0 ∧
    (find_firewall_ruleset_id fwEnvNoMatch).1 = none := by
  have h1 := C1_thm cacheEnvCreate fwEnvNoMatch [] [] rfl rfl rfl rfl
  have h2 := C1_thm cacheEnvNoId fwEnvNoMatch [] [] rfl rfl rfl rfl
  exact ⟨h1.1, h1.2.1 "newid123" (by decide) rfl, (h2.2.2.1 rfl).1,
    (h2.2.2.1 rfl).2 cache_rules_to_add, h1.2.2.2.2⟩

/-- C2 witness: the cache run attempts both rules, one is rejected
(tally 1 of 2, exit 1); the DNS run attempts all six updates, DNSSEC
is rejected (tally 5 of 6, exit 1). -/
theorem C2_wit :
    (cache_main cache_rules_to_add cacheEnvBatch).requests.countP Request.isAddRule = 2 ∧
    (cache_main cache_rules_to_add cacheEnvBatch).succeeded = 1 ∧
    (cache_main cache_rules_to_add cacheEnvBatch).exitCode = 1 ∧
    (dns_sec_main ssl_settings_to_apply dnsEnvBatch).requests.length = 6 ∧
    (dns_sec_main ssl_settings_to_apply dnsEnvBatch).succeeded = 5 ∧
    (dns_sec_main ssl_settings_to_apply dnsEnvBatch).exitCode = 1 := by
  have h := C2_thm cache_rules_to_add cacheEnvBatch rfl rfl
    ssl_settings_to_apply dnsEnvBatch rfl
  exact ⟨h.1.1, h.1.2.2.1, h.1.2.2.2 (by decide), h.2.1, h.2.2.2.1,
    h.2.2.2.2 (by decide)⟩

/-- C3 witness: all-success runs of the speed and security-settings
orchestrators have tally succeeded = attempted and exit 0. -/
theorem C3_wit :
    (speed_main speed_settings_to_apply speedEnvAll).succeeded
      = (speed_main speed_settings_to_apply speedEnvAll).attempted ∧
    (speed_main speed_settings_to_apply speedEnvAll).exitCode = 0 ∧
    (sec_settings_main standard_settings_to_apply secEnvAll).succeeded
      = (sec_settings_main standard_settings_to_apply secEnvAll).attempted ∧
    (sec_settings_main standard_settings_to_apply secEnvAll).exitCode = 0 := by
  have h := C3_thm speed_settings_to_apply speedEnvAll
    standard_settings_to_apply secEnvAll rfl (fun j hj => rfl) rfl rfl rfl
    (fun j hj => rfl)
  exact ⟨h.1.1, h.1.2, h.2.1, h.2.2⟩

/-- C4 witness: with existing matching rulesets, both locators return
the first match's id having issued only the enumeration request. -/
theorem C4_wit :
    find_or_create_cache_ruleset cacheEnvFound
      = (some "cacheA", [Request.listRulesets]) ∧
    find_firewall_ruleset_id fwEnvFound
      = (some "fwA", [Request.listRulesets]) :=
  C4_thm cacheEnvFound fwEnvFound [rsManaged, rsCacheA, rsCacheB]
    [rsManaged, rsFirewallA, rsFirewallB] rsCacheA rsFirewallA
    rfl rfl rfl rfl

/-- C5 witness: the HTTP-500 enumeration makes the locator fail, the
run issues zero mutation requests and exits 1. -/
theorem C5_wit :
    find_or_create_cache_ruleset cacheEnv500 = (none, [Request.listRulesets]) ∧
    (cache_main cache_rules_to_add cacheEnv500).requests.countP Request.isAddRule = 0 ∧
    (cache_main cache_rules_to_add cacheEnv500).exitCode = 1 := by
  have h := C5_thm cacheEnv500 (ReqError.httpError 500) rfl
  exact ⟨h.1, (h.2 cache_rules_to_add).1, (h.2 cache_rules_to_add).2⟩

/-- C6 witness: unset token (cache run) and empty zone id (rate-limit
run) each yield zero requests and exit 1. -/
theorem C6_wit :
    (cache_main cache_rules_to_add cacheEnvNoCred).requests = [] ∧
    (cache_main cache_rules_to_add cacheEnvNoCred).exitCode = 1 ∧
    (rate_limiting_main rateEnvNoCred).requests = [] ∧
    (rate_limiting_main rateEnvNoCred).exitCode = 1 :=
  C6_thm cacheEnvNoCred rateEnvNoCred cache_rules_to_add
    (Or.inl rfl) (Or.inr rfl)

/-- C10 witness: a firewall run whose enumeration lists no matching
ruleset issues only the read request, fails the locator, and exits 1
with zero writes. -/
theorem C10_wit :
    (find_firewall_ruleset_id fwEnvOnlyManaged).2 = [Request.listRulesets] ∧
    (find_firewall_ruleset_id fwEnvOnlyManaged).1 = none ∧
    (securityrules_main firewall_rules_to_add fwEnvOnlyManaged).exitCode = 1 ∧
    (securityrules_main firewall_rules_to_add fwEnvOnlyManaged).requests.countP
      Request.isWrite = 0 := by
  have h := C10_thm fwEnvOnlyManaged
  have h2 := h.2.2 [rsManaged] rfl rfl
  exact ⟨h.1, h2.1, (h2.2 firewall_rules_to_add).1,
    (h2.2 firewall_rules_to_add).2⟩
